import Mathlib

/-!
Shallow embedding of `src/backend/textract/async_textract_receipt.py`.

The script is a linear pipeline: convert a local PNG to JPEG, upload it to
S3, verify the upload with `head_object` (exceptions caught and reported),
start a Textract `start_document_analysis` job inside a `try` block, poll
`get_document_analysis` every 5 seconds until the status is SUCCEEDED or
FAILED, write the final response to `async_output.json` on SUCCEEDED, and
report the status (and optional StatusMessage) on FAILED.  Any exception
inside the `try` block is printed and re-raised.

The external world (PIL, S3, Textract, filesystem) is modelled by a
`World` of oracles: each external call either returns a value or raises a
Python exception (`PyExn`).  A run produces a trace of `Event`s (prints,
network calls, file writes, sleeps), the final state of the
`async_output.json` file, and an `Outcome` (normal exit, uncaught
exception, or - since the polling loop is unbounded - fuel exhaustion).
-/

namespace ReceiptApp

deriving instance DecidableEq for Except

/-- A Python exception, as observed by the script: its class name
(`type(e).__name__`) and its message (`str(e)`). -/
structure PyExn where
  typeName : String
  msg : String
deriving Repr, DecidableEq

/-- The response dictionary returned by `textract.get_document_analysis`:
the `JobStatus` string, the optional `StatusMessage`, the optional
pagination token `NextToken`, and the extracted payload (`Blocks` etc.),
kept opaque as a list of strings. -/
structure PollResponse where
  jobStatus : String
  statusMessage : Option String
  nextToken : Option String
  blocks : List String
deriving Repr, DecidableEq

/-- The metadata returned by `s3.head_object`. -/
structure HeadResponse where
  contentType : String
  contentLength : Nat
  lastModified : String
deriving Repr, DecidableEq

/-- Oracles for every external call the script makes, in program order.
`getAnalysis i` is the behaviour of the `i`-th `get_document_analysis`
poll.  `sourceMode` is the color mode of the decoded source image and
`region` the value of the `AWS_DEFAULT_REGION` environment variable. -/
structure World where
  sourceMode : String
  region : String
  openImage : Except PyExn Unit
  upload : Except PyExn Unit
  headObject : Except PyExn HeadResponse
  startAnalysis : Except PyExn String
  getAnalysis : Nat → Except PyExn PollResponse
  writeResult : Except PyExn Unit

/-- Observable events of a run: console prints, the local JPEG write
(`img.convert('RGB')`; `img.save(jpeg_file, 'JPEG', quality=95)`), the
network calls, the polling sleeps, and the result-file write
(`json.dump(result, f, indent=2)`). -/
inductive Event where
  | print (msg : String)
  | convertSave (src dst mode fmt : String) (quality : Nat)
  | s3Upload (file bucket key contentType : String)
  | s3Head (bucket key : String)
  | textractStart (bucket key : String) (features : List String) (jobTag : String)
  | textractGet (jobId : String) (nextToken : Option String)
  | sleep (seconds : Nat)
  | writeFile (path : String) (content : PollResponse) (indent : Nat)
deriving Repr, DecidableEq

/-- How the process ends: fall off the end of the script (exit code 0), an
uncaught or re-raised exception (abnormal termination), or the polling
loop still running when the modelling fuel runs out. -/
inductive Outcome where
  | normal
  | raised (e : PyExn)
  | outOfFuel
deriving Repr, DecidableEq

/-- The final content of `async_output.json`: path, the serialized
response, and the `indent` argument passed to `json.dump`. -/
abbrev ResultFile := String × PollResponse × Nat

/-- The result of a run: the event trace, the result file (if written),
and the process outcome. -/
structure RunResult where
  events : List Event
  resultFile : Option ResultFile
  outcome : Outcome
deriving Repr, DecidableEq

/-- `bucket_name = 'receipt-app-demo-mhomer'` -/
def bucket_name : String := "receipt-app-demo-mhomer"

/-- `original_file = 'receipt-1.png'` -/
def original_file : String := "receipt-1.png"

/-- `jpeg_file = 'receipt-1.jpg'` -/
def jpeg_file : String := "receipt-1.jpg"

/-- `s3_path = jpeg_file` -/
def s3_path : String := jpeg_file

/-- `img.convert('RGB')`: whatever the source color mode, the converted
image has mode RGB. -/
def convertRGB (_sourceMode : String) : String := "RGB"

/-- Whether a PIL color mode carries an alpha channel. -/
def modeHasAlpha (m : String) : Bool :=
  m == "RGBA" || m == "LA" || m == "PA"

/-- The loop exit test `if status in ['SUCCEEDED', 'FAILED']: break`. -/
def isTerminal (s : String) : Bool :=
  s == "SUCCEEDED" || s == "FAILED"

/-- The polling loop `while True: result = get_document_analysis(...); ...`.
`get i` is the behaviour of the `i`-th poll.  Fuel bounds the number of
iterations we model; `none` in the second component means the loop was
still running when the fuel ran out.  A poll that raises propagates the
exception (to the outer handler); a terminal status breaks the loop; any
other status sleeps 5 seconds and polls again. -/
def pollLoop (get : Nat → Except PyExn PollResponse) (jobId : String) :
    Nat → Nat → List Event × Option (Except PyExn PollResponse)
  | 0, _ => ([], none)
  | Nat.succ fuel, i =>
    match get i with
    | .error e => ([Event.textractGet jobId none], some (.error e))
    | .ok r =>
      let evs := [Event.textractGet jobId none,
                  Event.print ("Current status: " ++ r.jobStatus)]
      if isTerminal r.jobStatus then (evs, some (.ok r))
      else
        let rest := pollLoop get jobId fuel (i + 1)
        (evs ++ Event.sleep 5 :: rest.1, rest.2)

/-- The prints of the outer `except Exception as e:` handler. -/
def catchEvents (e : PyExn) : List Event :=
  [Event.print ("Error processing document: " ++ e.msg),
   Event.print ("Error type: " ++ e.typeName)]

/-- The `try: response = s3.head_object(...) ... except` verification
step: on success the metadata is printed, on failure the exception is
printed and execution continues. -/
def verifyEvents (w : World) : List Event :=
  Event.s3Head bucket_name s3_path ::
  (match w.headObject with
   | .ok r =>
     [Event.print ("Successfully verified file exists at s3://" ++ bucket_name ++ "/" ++ s3_path),
      Event.print "File metadata:",
      Event.print ("Content Type: " ++ r.contentType),
      Event.print ("Content Length: " ++ toString r.contentLength ++ " bytes"),
      Event.print ("Last Modified: " ++ r.lastModified)]
   | .error e =>
     [Event.print ("Error verifying file: " ++ e.msg)])

/-- The `if status == 'SUCCEEDED':` branch: write `async_output.json`
with `json.dump(result, f, indent=2)` and print the success message.  An
exception from the write propagates to the outer handler. -/
def succeededBranch (w : World) (r : PollResponse) :
    List Event × Option ResultFile × Outcome :=
  match w.writeResult with
  | .error e => (catchEvents e, none, .raised e)
  | .ok _ =>
    ([Event.writeFile "async_output.json" r 2,
      Event.print "Done! Result saved to async_output.json"],
     some ("async_output.json", r, 2), .normal)

/-- The `else:` branch after the loop (status is FAILED): print the
status, print `StatusMessage` if present, and fall off the end of the
`try` block - no exception is raised, so the process exits normally. -/
def failedBranch (r : PollResponse) : List Event × Option ResultFile × Outcome :=
  (Event.print ("Job failed with status: " ++ r.jobStatus) ::
     (match r.statusMessage with
      | some m => [Event.print ("Status message: " ++ m)]
      | none => []),
   none, .normal)

/-- After the loop breaks with response `r`:
`if status == 'SUCCEEDED': ... else: ...`. -/
def afterPoll (w : World) (r : PollResponse) :
    List Event × Option ResultFile × Outcome :=
  if r.jobStatus == "SUCCEEDED" then succeededBranch w r else failedBranch r

/-- The events up to and including the `s3.upload_file` call: the
conversion prints, the local JPEG write, and the upload invocation. -/
def convertUploadEvents (sourceMode : String) : List Event :=
  [Event.print "Converting image to JPEG...",
   Event.convertSave original_file jpeg_file (convertRGB sourceMode) "JPEG" 95,
   Event.print ("Saved as " ++ jpeg_file),
   Event.print "Uploading image to S3...",
   Event.s3Upload jpeg_file bucket_name s3_path "image/jpeg"]

/-- The prints before submission and the `start_document_analysis` call. -/
def submitEvents (region : String) : List Event :=
  [Event.print "Starting Textract job...",
   Event.print ("Using region: " ++ region),
   Event.print ("Attempting to process file: s3://" ++ bucket_name ++ "/" ++ s3_path),
   Event.textractStart bucket_name s3_path ["FORMS", "TABLES"] "ReceiptAnalysis"]

/-- The prints after a successful submission, before the polling loop. -/
def postStartEvents (jobId : String) : List Event :=
  [Event.print ("Job started with ID: " ++ jobId),
   Event.print "Waiting for job to complete..."]

/-- The body of the outer `try` block: print region and target, call
`start_document_analysis`, then poll.  Exceptions from submission,
polling, or result writing are printed by the handler and re-raised. -/
def tryBlock (w : World) (fuel : Nat) : List Event × Option ResultFile × Outcome :=
  match w.startAnalysis with
  | .error e => (submitEvents w.region ++ catchEvents e, none, .raised e)
  | .ok jobId =>
    match pollLoop w.getAnalysis jobId fuel 0 with
    | (evs, none) =>
      (submitEvents w.region ++ postStartEvents jobId ++ evs, none, .outOfFuel)
    | (evs, some (.error e)) =>
      (submitEvents w.region ++ postStartEvents jobId ++ evs ++ catchEvents e, none, .raised e)
    | (evs, some (.ok r)) =>
      let res := afterPoll w r
      (submitEvents w.region ++ postStartEvents jobId ++ evs ++ res.1, res.2.1, res.2.2)

/-- The whole script, in program order.  `Image.open` failure and
`s3.upload_file` failure are outside any `try` block and abort the run
immediately with an uncaught exception. -/
def run (w : World) (fuel : Nat) : RunResult :=
  match w.openImage with
  | .error e => ⟨[Event.print "Converting image to JPEG..."], none, .raised e⟩
  | .ok _ =>
    match w.upload with
    | .error e => ⟨convertUploadEvents w.sourceMode, none, .raised e⟩
    | .ok _ =>
      let res := tryBlock w fuel
      ⟨convertUploadEvents w.sourceMode ++ verifyEvents w ++ res.1, res.2.1, res.2.2⟩

/-- A JSON value, for stating what `json.dump` serializes. -/
inductive Json where
  | null
  | str (s : String)
  | num (n : Int)
  | arr (elems : List Json)
  | obj (fields : List (String × Json))

/-- An optional string field of the response dictionary. -/
def optField (key : String) : Option String → List (String × Json)
  | some v => [(key, Json.str v)]
  | none => []

/-- The JSON document `json.dump` produces for a `get_document_analysis`
response dictionary: a JSON object with a top-level `JobStatus` field,
the optional `StatusMessage` and `NextToken` fields, and the payload. -/
def PollResponse.toJson (r : PollResponse) : Json :=
  Json.obj ([("JobStatus", Json.str r.jobStatus)]
    ++ optField "StatusMessage" r.statusMessage
    ++ optField "NextToken" r.nextToken
    ++ [("Blocks", Json.arr (r.blocks.map Json.str))])

/-- Top-level field lookup in a JSON object. -/
def Json.getField (j : Json) (key : String) : Option Json :=
  match j with
  | .obj fields => (fields.find? (fun p => p.fst == key)).map Prod.snd
  | _ => none

/-- Event classifier: a write of the result JSON file. -/
def Event.isResultWrite : Event → Bool
  | .writeFile _ _ _ => true
  | _ => false

/-- Event classifier: the `s3.upload_file` call. -/
def Event.isUpload : Event → Bool
  | .s3Upload _ _ _ _ => true
  | _ => false

/-- Event classifier: the `s3.head_object` call. -/
def Event.isHead : Event → Bool
  | .s3Head _ _ => true
  | _ => false

/-- Event classifier: the `start_document_analysis` call. -/
def Event.isStart : Event → Bool
  | .textractStart _ _ _ _ => true
  | _ => false

/-- Event classifier: a `get_document_analysis` poll. -/
def Event.isPoll : Event → Bool
  | .textractGet _ _ => true
  | _ => false

/-- Event classifier: any network call (S3 or Textract). -/
def Event.isNet : Event → Bool
  | .s3Upload _ _ _ _ => true
  | .s3Head _ _ => true
  | .textractStart _ _ _ _ => true
  | .textractGet _ _ => true
  | _ => false

/-- Event classifier: a `time.sleep` call. -/
def Event.isSleep : Event → Bool
  | .sleep _ => true
  | _ => false

/-- A poll never carries a pagination token: the script calls
`get_document_analysis(JobId=job_id)` with no `NextToken` argument. -/
def Event.firstPageOnly : Event → Bool
  | .textractGet _ tok => tok.isNone
  | _ => true

/-- Event classifier: the outer handler's diagnostic print. -/
def Event.isCatchReport : Event → Bool
  | .print m => m.startsWith "Error processing document: "
  | _ => false

/-- Number of events in a trace satisfying `p`. -/
def countP (p : Event → Bool) (t : List Event) : Nat :=
  (t.filter p).length

/-- A sample terminal SUCCEEDED response carrying a pagination token. -/
def okResp : PollResponse :=
  { jobStatus := "SUCCEEDED", statusMessage := none,
    nextToken := some "token-1", blocks := ["b0", "b1"] }

/-- A sample terminal FAILED response with a status message. -/
def failResp : PollResponse :=
  { jobStatus := "FAILED", statusMessage := some "Unsupported document format",
    nextToken := none, blocks := [] }

/-- A sample non-terminal response. -/
def inProgressResp : PollResponse :=
  { jobStatus := "IN_PROGRESS", statusMessage := none,
    nextToken := none, blocks := [] }

/-- A sample head-object response. -/
def okHead : HeadResponse :=
  { contentType := "image/jpeg", contentLength := 12345,
    lastModified := "2024-01-01" }

/-- A fully successful world: one IN_PROGRESS poll, then SUCCEEDED. -/
def happyWorld : World :=
  { sourceMode := "RGBA", region := "us-east-1",
    openImage := .ok (), upload := .ok (), headObject := .ok okHead,
    startAnalysis := .ok "job-1",
    getAnalysis := fun i => if i = 0 then .ok inProgressResp else .ok okResp,
    writeResult := .ok () }

/-- A world whose job reaches FAILED after one IN_PROGRESS poll. -/
def failWorld : World :=
  { happyWorld with
    getAnalysis := fun i => if i = 0 then .ok inProgressResp else .ok failResp }

/-- A world where `Image.open` raises (source file missing). -/
def decodeFailWorld : World :=
  { happyWorld with
    openImage := .error ⟨"FileNotFoundError", "No such file or directory"⟩ }

/-- A world where `s3.upload_file` raises. -/
def uploadFailWorld : World :=
  { happyWorld with
    upload := .error ⟨"S3UploadFailedError", "Access Denied"⟩ }

/-- A world where `s3.head_object` raises but all else succeeds. -/
def headFailWorld : World :=
  { happyWorld with
    headObject := .error ⟨"ClientError", "Not Found"⟩ }

/-- A world where `start_document_analysis` raises. -/
def startFailWorld : World :=
  { happyWorld with
    startAnalysis := .error ⟨"InvalidS3ObjectException", "Unable to get object"⟩ }

/-- A world where the second poll raises. -/
def pollFailWorld : World :=
  { happyWorld with
    getAnalysis := fun i =>
      if i = 0 then .ok inProgressResp
      else .error ⟨"ThrottlingException", "Rate exceeded"⟩ }

/-- A world where writing `async_output.json` raises. -/
def writeFailWorld : World :=
  { happyWorld with writeResult := .error ⟨"OSError", "No space left on device"⟩ }

/-! ## Helper lemmas -/

/-- With no fuel the loop reports exhaustion. -/
theorem pollLoop_zero (get : Nat → Except PyExn PollResponse) (j : String) (i : Nat) :
    pollLoop get j 0 i = ([], none) := rfl

/-- If the loop breaks with a response, that response's status is terminal:
no iteration exits on a non-terminal status. -/
theorem pollLoop_snd_ok_terminal (get : Nat → Except PyExn PollResponse) (j : String) :
    ∀ fuel i r, (pollLoop get j fuel i).2 = some (Except.ok r) →
      isTerminal r.jobStatus = true := by
  intro fuel
  induction fuel with
  | zero =>
    intro i r h
    simp [pollLoop] at h
  | succ n ih =>
    intro i r h
    unfold pollLoop at h
    cases hg : get i with
    | error e =>
      rw [hg] at h
      simp at h
    | ok p =>
      rw [hg] at h
      by_cases ht : isTerminal p.jobStatus = true
      · simp [ht] at h
        exact h ▸ ht
      · simp [ht] at h
        exact ih (i + 1) r h

/-- Every event the polling loop emits is a poll without pagination token,
a status print, or a 5-second sleep: in particular the loop never uploads,
never submits a job, never touches S3 metadata, and never writes the
result file. -/
theorem pollLoop_mem_shape (get : Nat → Except PyExn PollResponse) (j : String) :
    ∀ fuel i ev, ev ∈ (pollLoop get j fuel i).1 →
      Event.firstPageOnly ev = true ∧ Event.isUpload ev = false ∧
      Event.isStart ev = false ∧ Event.isHead ev = false ∧
      Event.isResultWrite ev = false ∧
      (Event.isSleep ev = true → ev = Event.sleep 5) := by
  intro fuel
  induction fuel with
  | zero =>
    intro i ev h
    simp [pollLoop] at h
  | succ n ih =>
    intro i ev h
    unfold pollLoop at h
    cases hg : get i with
    | error e =>
      rw [hg] at h
      simp at h
      subst h
      exact ⟨rfl, rfl, rfl, rfl, rfl, by intro hs; cases hs⟩
    | ok p =>
      rw [hg] at h
      by_cases ht : isTerminal p.jobStatus = true
      · simp [ht] at h
        rcases h with h | h <;> subst h <;>
          exact ⟨rfl, rfl, rfl, rfl, rfl, by intro hs; cases hs⟩
      · simp [ht] at h
        rcases h with h | h | h | h
        · subst h; exact ⟨rfl, rfl, rfl, rfl, rfl, by intro hs; cases hs⟩
        · subst h; exact ⟨rfl, rfl, rfl, rfl, rfl, by intro hs; cases hs⟩
        · subst h; exact ⟨rfl, rfl, rfl, rfl, rfl, fun _ => rfl⟩
        · exact ih (i + 1) ev h

/-- A trace all of whose events fail `p` contributes a count of zero. -/
theorem countP_eq_zero {p : Event → Bool} {t : List Event}
    (h : ∀ ev ∈ t, p ev = false) : countP p t = 0 := by
  simp only [countP, List.length_eq_zero, List.filter_eq_nil_iff]
  intro ev hev
  simp [h ev hev]

/-- `countP` distributes over trace concatenation. -/
theorem countP_append (p : Event → Bool) (s t : List Event) :
    countP p (s ++ t) = countP p s + countP p t := by
  simp [countP, List.filter_append]

/-- If the image decodes but the upload raises, the run stops right after
the upload invocation with the exception uncaught. -/
theorem run_upload_error (w : World) (fuel : Nat) (e : PyExn)
    (hopen : w.openImage = Except.ok ()) (hup : w.upload = Except.error e) :
    run w fuel = ⟨convertUploadEvents w.sourceMode, none, Outcome.raised e⟩ := by
  unfold run
  rw [hopen, hup]

/-- If both the decode and the upload succeed, the run is the conversion
and upload events, the verification events, and the `try` block. -/
theorem run_ok_upload (w : World) (fuel : Nat)
    (hopen : w.openImage = Except.ok ()) (hup : w.upload = Except.ok ()) :
    run w fuel =
      ⟨convertUploadEvents w.sourceMode ++ verifyEvents w ++ (tryBlock w fuel).1,
       (tryBlock w fuel).2.1, (tryBlock w fuel).2.2⟩ := by
  unfold run
  rw [hopen, hup]

/-- The `try` block when `start_document_analysis` raises: the handler
prints and the exception is re-raised. -/
theorem tryBlock_start_error (w : World) (fuel : Nat) (e : PyExn)
    (h : w.startAnalysis = Except.error e) :
    tryBlock w fuel =
      (submitEvents w.region ++ catchEvents e, none, Outcome.raised e) := by
  unfold tryBlock
  rw [h]

/-- The `try` block when submission succeeds but some poll raises: the
handler prints and the exception is re-raised. -/
theorem tryBlock_poll_error (w : World) (fuel : Nat) (jid : String)
    (evs : List Event) (e : PyExn)
    (h : w.startAnalysis = Except.ok jid)
    (hp : pollLoop w.getAnalysis jid fuel 0 = (evs, some (Except.error e))) :
    tryBlock w fuel =
      (submitEvents w.region ++ postStartEvents jid ++ evs ++ catchEvents e,
       none, Outcome.raised e) := by
  simp only [tryBlock, h, hp]

/-- The `try` block when submission succeeds and the loop breaks with a
response: control reaches the status dispatch. -/
theorem tryBlock_poll_ok (w : World) (fuel : Nat) (jid : String)
    (evs : List Event) (r : PollResponse)
    (h : w.startAnalysis = Except.ok jid)
    (hp : pollLoop w.getAnalysis jid fuel 0 = (evs, some (Except.ok r))) :
    tryBlock w fuel =
      (submitEvents w.region ++ postStartEvents jid ++ evs ++ (afterPoll w r).1,
       (afterPoll w r).2.1, (afterPoll w r).2.2) := by
  simp only [tryBlock, h, hp]

/-- The status dispatch on SUCCEEDED with a successful file write. -/
theorem afterPoll_succeeded (w : World) (r : PollResponse)
    (h : r.jobStatus = "SUCCEEDED") (hw : w.writeResult = Except.ok ()) :
    afterPoll w r =
      ([Event.writeFile "async_output.json" r 2,
        Event.print "Done! Result saved to async_output.json"],
       some ("async_output.json", r, 2), Outcome.normal) := by
  unfold afterPoll succeededBranch
  rw [h, hw]
  simp

/-- The status dispatch on SUCCEEDED when the file write raises. -/
theorem afterPoll_succeeded_write_error (w : World) (r : PollResponse) (e : PyExn)
    (h : r.jobStatus = "SUCCEEDED") (hw : w.writeResult = Except.error e) :
    afterPoll w r = (catchEvents e, none, Outcome.raised e) := by
  unfold afterPoll succeededBranch
  rw [h, hw]
  simp

/-- The `try` block when the loop runs out of modelling fuel. -/
theorem tryBlock_poll_none (w : World) (fuel : Nat) (jid : String)
    (evs : List Event)
    (h : w.startAnalysis = Except.ok jid)
    (hp : pollLoop w.getAnalysis jid fuel 0 = (evs, none)) :
    tryBlock w fuel =
      (submitEvents w.region ++ postStartEvents jid ++ evs, none,
       Outcome.outOfFuel) := by
  simp only [tryBlock, h, hp]

/-- Top-level `JobStatus` lookup in the serialized response. -/
theorem toJson_getField_jobStatus (r : PollResponse) :
    Json.getField (PollResponse.toJson r) "JobStatus" =
      some (Json.str r.jobStatus) := rfl

/-- Shape of the events up to the upload: no job submission, no metadata
read, no poll, no result write. -/
theorem convertUploadEvents_mem_shape (m : String) :
    ∀ ev ∈ convertUploadEvents m,
      Event.isStart ev = false ∧ Event.isHead ev = false ∧
      Event.isResultWrite ev = false ∧ Event.isPoll ev = false ∧
      Event.firstPageOnly ev = true := by
  simp [convertUploadEvents, Event.isStart, Event.isHead, Event.isResultWrite,
        Event.isPoll, Event.firstPageOnly]

/-- Shape of the verification events: no upload, no submission, no poll,
no result write. -/
theorem verifyEvents_mem_shape (w : World) :
    ∀ ev ∈ verifyEvents w,
      Event.isUpload ev = false ∧ Event.isStart ev = false ∧
      Event.isResultWrite ev = false ∧ Event.isPoll ev = false ∧
      Event.firstPageOnly ev = true := by
  unfold verifyEvents
  cases hh : w.headObject <;>
    simp [Event.isUpload, Event.isStart, Event.isResultWrite, Event.isPoll,
          Event.firstPageOnly]

/-- Shape of the submission events: no upload, no metadata read, no poll,
no result write. -/
theorem submitEvents_mem_shape (region : String) :
    ∀ ev ∈ submitEvents region,
      Event.isUpload ev = false ∧ Event.isHead ev = false ∧
      Event.isResultWrite ev = false ∧ Event.isPoll ev = false ∧
      Event.firstPageOnly ev = true := by
  simp [submitEvents, Event.isUpload, Event.isHead, Event.isResultWrite,
        Event.isPoll, Event.firstPageOnly]

/-- Shape of the post-submission prints. -/
theorem postStartEvents_mem_shape (jid : String) :
    ∀ ev ∈ postStartEvents jid,
      Event.isUpload ev = false ∧ Event.isStart ev = false ∧
      Event.isHead ev = false ∧ Event.isResultWrite ev = false ∧
      Event.isPoll ev = false ∧ Event.firstPageOnly ev = true := by
  simp [postStartEvents, Event.isUpload, Event.isStart, Event.isHead,
        Event.isResultWrite, Event.isPoll, Event.firstPageOnly]

/-- Shape of the outer handler's prints. -/
theorem catchEvents_mem_shape (e : PyExn) :
    ∀ ev ∈ catchEvents e,
      Event.isUpload ev = false ∧ Event.isStart ev = false ∧
      Event.isHead ev = false ∧ Event.isResultWrite ev = false ∧
      Event.isPoll ev = false ∧ Event.firstPageOnly ev = true := by
  simp [catchEvents, Event.isUpload, Event.isStart, Event.isHead,
        Event.isResultWrite, Event.isPoll, Event.firstPageOnly]

/-- Shape of the post-loop dispatch events: no upload, no submission, no
metadata read, no poll. -/
theorem afterPoll_mem_shape (w : World) (r : PollResponse) :
    ∀ ev ∈ (afterPoll w r).1,
      Event.isUpload ev = false ∧ Event.isStart ev = false ∧
      Event.isHead ev = false ∧ Event.isPoll ev = false ∧
      Event.firstPageOnly ev = true := by
  intro ev hev
  unfold afterPoll succeededBranch failedBranch at hev
  by_cases hs : (r.jobStatus == "SUCCEEDED") = true
  · rw [if_pos hs] at hev
    cases hw : w.writeResult with
    | error e =>
      rw [hw] at hev
      simp [catchEvents] at hev
      rcases hev with h | h <;> subst h <;> exact ⟨rfl, rfl, rfl, rfl, rfl⟩
    | ok u =>
      rw [hw] at hev
      simp at hev
      rcases hev with h | h <;> subst h <;> exact ⟨rfl, rfl, rfl, rfl, rfl⟩
  · rw [if_neg hs] at hev
    cases hm : r.statusMessage with
    | none =>
      rw [hm] at hev
      simp at hev
      subst hev
      exact ⟨rfl, rfl, rfl, rfl, rfl⟩
    | some m =>
      rw [hm] at hev
      simp at hev
      rcases hev with h | h <;> subst h <;> exact ⟨rfl, rfl, rfl, rfl, rfl⟩

/-- The submission call event occurs in every branch of the `try` block. -/
theorem tryBlock_contains_start (w : World) (fuel : Nat) :
    Event.textractStart bucket_name s3_path ["FORMS", "TABLES"] "ReceiptAnalysis" ∈
      (tryBlock w fuel).1 := by
  cases hs : w.startAnalysis with
  | error e =>
    rw [tryBlock_start_error w fuel e hs]
    simp [submitEvents]
  | ok jid =>
    rcases hp : pollLoop w.getAnalysis jid fuel 0 with ⟨evs, res⟩
    match res with
    | none =>
      rw [tryBlock_poll_none w fuel jid evs hs hp]
      simp [submitEvents]
    | some (.error e) =>
      rw [tryBlock_poll_error w fuel jid evs e hs hp]
      simp [submitEvents]
    | some (.ok r) =>
      rw [tryBlock_poll_ok w fuel jid evs r hs hp]
      simp [submitEvents]

/-- The upload events contain exactly one upload call and the submission
events exactly one submission call. -/
theorem countP_single_calls (m region : String) :
    countP Event.isUpload (convertUploadEvents m) = 1 ∧
    countP Event.isStart (submitEvents region) = 1 := by
  constructor <;>
    simp [countP, convertUploadEvents, submitEvents, List.filter,
          Event.isUpload, Event.isStart]

/-- The `try` block performs no upload and exactly one submission. -/
theorem tryBlock_counts (w : World) (fuel : Nat) :
    countP Event.isUpload (tryBlock w fuel).1 = 0 ∧
    countP Event.isStart (tryBlock w fuel).1 = 1 := by
  have hsub : countP Event.isUpload (submitEvents w.region) = 0 :=
    countP_eq_zero (fun ev hev => (submitEvents_mem_shape w.region ev hev).1)
  have hsub1 : countP Event.isStart (submitEvents w.region) = 1 :=
    (countP_single_calls "" w.region).2
  cases hs : w.startAnalysis with
  | error e =>
    rw [tryBlock_start_error w fuel e hs]
    have hc : countP Event.isUpload (catchEvents e) = 0 :=
      countP_eq_zero (fun ev hev => (catchEvents_mem_shape e ev hev).1)
    have hc2 : countP Event.isStart (catchEvents e) = 0 :=
      countP_eq_zero (fun ev hev => (catchEvents_mem_shape e ev hev).2.1)
    constructor <;> simp [countP_append, hsub, hsub1, hc, hc2]
  | ok jid =>
    rcases hp : pollLoop w.getAnalysis jid fuel 0 with ⟨evs, res⟩
    have hevs : countP Event.isUpload evs = 0 :=
      countP_eq_zero (fun ev hev =>
        (pollLoop_mem_shape w.getAnalysis jid fuel 0 ev (by rw [hp]; exact hev)).2.1)
    have hevs2 : countP Event.isStart evs = 0 :=
      countP_eq_zero (fun ev hev =>
        (pollLoop_mem_shape w.getAnalysis jid fuel 0 ev (by rw [hp]; exact hev)).2.2.1)
    have hpost : countP Event.isUpload (postStartEvents jid) = 0 :=
      countP_eq_zero (fun ev hev => (postStartEvents_mem_shape jid ev hev).1)
    have hpost2 : countP Event.isStart (postStartEvents jid) = 0 :=
      countP_eq_zero (fun ev hev => (postStartEvents_mem_shape jid ev hev).2.1)
    match res with
    | none =>
      rw [tryBlock_poll_none w fuel jid evs hs hp]
      constructor <;> simp [countP_append, hsub, hsub1, hevs, hevs2, hpost, hpost2]
    | some (.error e) =>
      rw [tryBlock_poll_error w fuel jid evs e hs hp]
      have hc : countP Event.isUpload (catchEvents e) = 0 :=
        countP_eq_zero (fun ev hev => (catchEvents_mem_shape e ev hev).1)
      have hc2 : countP Event.isStart (catchEvents e) = 0 :=
        countP_eq_zero (fun ev hev => (catchEvents_mem_shape e ev hev).2.1)
      constructor <;>
        simp [countP_append, hsub, hsub1, hevs, hevs2, hpost, hpost2, hc, hc2]
    | some (.ok r) =>
      rw [tryBlock_poll_ok w fuel jid evs r hs hp]
      have ha : countP Event.isUpload (afterPoll w r).1 = 0 :=
        countP_eq_zero (fun ev hev => (afterPoll_mem_shape w r ev hev).1)
      have ha2 : countP Event.isStart (afterPoll w r).1 = 0 :=
        countP_eq_zero (fun ev hev => (afterPoll_mem_shape w r ev hev).2.1)
      constructor <;>
        simp [countP_append, hsub, hsub1, hevs, hevs2, hpost, hpost2, ha, ha2]

/-- The status dispatch on the FAILED terminal status: report, no file
write, normal exit. -/
theorem afterPoll_failed (w : World) (r : PollResponse)
    (h : r.jobStatus = "FAILED") :
    afterPoll w r =
      (Event.print ("Job failed with status: " ++ r.jobStatus) ::
         (match r.statusMessage with
          | some m => [Event.print ("Status message: " ++ m)]
          | none => []),
       none, Outcome.normal) := by
  unfold afterPoll failedBranch
  rw [h]
  simp

/-- If `Image.open` raises, the run ends at once with the exception
uncaught, having emitted only the first print. -/
theorem run_decode_error (w : World) (fuel : Nat) (e : PyExn)
    (hopen : w.openImage = Except.error e) :
    run w fuel =
      ⟨[Event.print "Converting image to JPEG..."], none, Outcome.raised e⟩ := by
  unfold run
  rw [hopen]

/-! ## Claims -/

/-- Claim C1, counterexample.  In the concrete run `failWorld` the final
poll returns `JobStatus` FAILED, no result file is written - but the
process exits NORMALLY (the `else` branch only prints and falls off the
end of the `try` block; nothing is raised), contradicting the claimed
non-zero failure signal. -/
theorem C1_counterexample :
    (pollLoop failWorld.getAnalysis "job-1" 5 0).2 = some (Except.ok failResp) ∧
    failResp.jobStatus = "FAILED" ∧
    (run failWorld 5).resultFile = none ∧
    (run failWorld 5).outcome = Outcome.normal := by
  refine ⟨by decide, by decide, by decide, by decide⟩

/-- Claim C1 (amended): for every run in which the final poll returns
`JobStatus` FAILED, the program writes no result file and reports the
terminal status and (when present) the service-provided status message -
but it then terminates NORMALLY (exit code 0), not with a failure
signal, because the FAILED branch raises no exception. -/
theorem C1_failed_reports_no_file_normal_exit (w : World) (fuel : Nat)
    (jid : String) (evs : List Event) (r : PollResponse)
    (hopen : w.openImage = Except.ok ()) (hup : w.upload = Except.ok ())
    (hstart : w.startAnalysis = Except.ok jid)
    (hpoll : pollLoop w.getAnalysis jid fuel 0 = (evs, some (Except.ok r)))
    (hfail : r.jobStatus = "FAILED") :
    (run w fuel).resultFile = none ∧
    Event.print ("Job failed with status: " ++ r.jobStatus) ∈ (run w fuel).events ∧
    (∀ m, r.statusMessage = some m →
      Event.print ("Status message: " ++ m) ∈ (run w fuel).events) ∧
    (run w fuel).outcome = Outcome.normal := by
  have hrun := run_ok_upload w fuel hopen hup
  have htb := tryBlock_poll_ok w fuel jid evs r hstart hpoll
  have hap := afterPoll_failed w r hfail
  rw [hrun, htb, hap]
  refine ⟨rfl, by simp, ?_, rfl⟩
  intro m hm
  rw [hm]
  simp

/-- Claim C1 witness: the amended theorem applied to the concrete run
`failWorld`. -/
theorem C1_witness :
    (run failWorld 5).resultFile = none ∧
    Event.print ("Job failed with status: " ++ failResp.jobStatus) ∈
      (run failWorld 5).events ∧
    Event.print ("Status message: " ++ "Unsupported document format") ∈
      (run failWorld 5).events ∧
    (run failWorld 5).outcome = Outcome.normal := by
  obtain ⟨h1, h2, h3, h4⟩ := C1_failed_reports_no_file_normal_exit failWorld 5
      "job-1"
      [Event.textractGet "job-1" none,
       Event.print ("Current status: " ++ inProgressResp.jobStatus),
       Event.sleep 5,
       Event.textractGet "job-1" none,
       Event.print ("Current status: " ++ failResp.jobStatus)]
      failResp rfl rfl rfl (by decide) rfl
  exact ⟨h1, h2, h3 "Unsupported document format" rfl, h4⟩

/-- Claim C2: the polling loop exits exactly when the observed status is
terminal (SUCCEEDED or FAILED): on a terminal status it breaks with that
response and does not sleep; on any other reported status it sleeps a
fixed 5 seconds and polls again at the next index; and whenever the loop
breaks with a response, that response's status is terminal. -/
theorem C2_poll_loop_exits_iff_terminal
    (get : Nat → Except PyExn PollResponse) (j : String) (fuel i : Nat)
    (r : PollResponse) (h : get i = Except.ok r) :
    (isTerminal r.jobStatus = true →
      pollLoop get j (fuel + 1) i =
        ([Event.textractGet j none,
          Event.print ("Current status: " ++ r.jobStatus)],
         some (Except.ok r))) ∧
    (isTerminal r.jobStatus = false →
      pollLoop get j (fuel + 1) i =
        (Event.textractGet j none ::
           Event.print ("Current status: " ++ r.jobStatus) ::
           Event.sleep 5 :: (pollLoop get j fuel (i + 1)).1,
         (pollLoop get j fuel (i + 1)).2)) ∧
    (∀ fuelA evsA rA, pollLoop get j fuelA i = (evsA, some (Except.ok rA)) →
      isTerminal rA.jobStatus = true) := by
  refine ⟨?_, ?_, ?_⟩
  · intro ht
    unfold pollLoop
    rw [h]
    simp [ht]
  · intro ht
    conv_lhs => unfold pollLoop
    rw [h]
    simp [ht]
  · intro fuelA evsA rA hp
    exact pollLoop_snd_ok_terminal get j fuelA i rA (by rw [hp])

/-- Claim C2 witness: the theorem applied at the concrete first poll of
`happyWorld`, whose status IN_PROGRESS is non-terminal. -/
theorem C2_witness :
    isTerminal inProgressResp.jobStatus = false ∧
    pollLoop happyWorld.getAnalysis "job-1" 4 0 =
      (Event.textractGet "job-1" none ::
         Event.print ("Current status: " ++ inProgressResp.jobStatus) ::
         Event.sleep 5 :: (pollLoop happyWorld.getAnalysis "job-1" 3 1).1,
       (pollLoop happyWorld.getAnalysis "job-1" 3 1).2) :=
  ⟨by decide,
   (C2_poll_loop_exits_iff_terminal happyWorld.getAnalysis "job-1" 3 0
      inProgressResp rfl).2.1 (by decide)⟩

/-- Within `n + 1` polls the loop starting at index `i` reaches a
terminal response, provided poll `i + n` reports a terminal status and no
poll raises. -/
theorem pollLoop_reaches_terminal (p : Nat → PollResponse) (j : String) :
    ∀ n i, isTerminal (p (i + n)).jobStatus = true →
      ∃ evs r, pollLoop (fun k => Except.ok (p k)) j (n + 1) i =
          (evs, some (Except.ok r)) ∧ isTerminal r.jobStatus = true := by
  intro n
  induction n with
  | zero =>
    intro i h
    rw [Nat.add_zero] at h
    refine ⟨[Event.textractGet j none,
             Event.print ("Current status: " ++ (p i).jobStatus)], p i, ?_, h⟩
    unfold pollLoop
    simp [h]
  | succ m ih =>
    intro i h
    by_cases ht : isTerminal (p i).jobStatus = true
    · refine ⟨[Event.textractGet j none,
               Event.print ("Current status: " ++ (p i).jobStatus)], p i, ?_, ht⟩
      unfold pollLoop
      simp [ht]
    · have hh : isTerminal (p ((i + 1) + m)).jobStatus = true := by
        have harith : (i + 1) + m = i + (m + 1) := by omega
        rw [harith]
        exact h
      obtain ⟨evs, r, hp, hr⟩ := ih (i + 1) hh
      refine ⟨Event.textractGet j none ::
                Event.print ("Current status: " ++ (p i).jobStatus) ::
                Event.sleep 5 :: evs, r, ?_, hr⟩
      unfold pollLoop
      simp only [Bool.not_eq_true] at ht
      simp [ht, hp]

/-- Claim C3: the polling loop terminates - it has no attempt bound or
timeout, so the explicit precondition is that some poll eventually
returns a terminal status (and no earlier poll raises): if poll `n`
reports SUCCEEDED or FAILED, the loop started at index 0 breaks within
`n + 1` iterations with a terminal response. -/
theorem C3_poll_loop_terminates (p : Nat → PollResponse) (j : String) (n : Nat)
    (hterm : isTerminal (p n).jobStatus = true) :
    ∃ evs r, pollLoop (fun k => Except.ok (p k)) j (n + 1) 0 =
        (evs, some (Except.ok r)) ∧ isTerminal r.jobStatus = true :=
  pollLoop_reaches_terminal p j n 0 (by simpa using hterm)

/-- Claim C3 witness: a concrete status stream that is IN_PROGRESS once
and then SUCCEEDED terminates the loop. -/
theorem C3_witness :
    isTerminal ((fun k => if k = 0 then inProgressResp else okResp) 1).jobStatus = true ∧
    ∃ evs r, pollLoop
        (fun k => Except.ok ((fun i => if i = 0 then inProgressResp else okResp) k))
        "job-1" 2 0 = (evs, some (Except.ok r)) ∧
      isTerminal r.jobStatus = true :=
  ⟨by decide,
   C3_poll_loop_terminates (fun k => if k = 0 then inProgressResp else okResp)
     "job-1" 1 (by decide)⟩

/-- Claim C4: for every run in which the final poll returns `JobStatus`
SUCCEEDED, the program serializes the complete final poll response to
`async_output.json` as JSON indented by 2, and the written document is a
JSON object whose top-level `JobStatus` field equals "SUCCEEDED". -/
theorem C4_succeeded_writes_result (w : World) (fuel : Nat)
    (jid : String) (evs : List Event) (r : PollResponse)
    (hopen : w.openImage = Except.ok ()) (hup : w.upload = Except.ok ())
    (hstart : w.startAnalysis = Except.ok jid)
    (hpoll : pollLoop w.getAnalysis jid fuel 0 = (evs, some (Except.ok r)))
    (hsucc : r.jobStatus = "SUCCEEDED") (hwrite : w.writeResult = Except.ok ()) :
    (run w fuel).resultFile = some ("async_output.json", r, 2) ∧
    Event.writeFile "async_output.json" r 2 ∈ (run w fuel).events ∧
    Json.getField (PollResponse.toJson r) "JobStatus" =
      some (Json.str "SUCCEEDED") ∧
    (run w fuel).outcome = Outcome.normal := by
  have hrun := run_ok_upload w fuel hopen hup
  have htb := tryBlock_poll_ok w fuel jid evs r hstart hpoll
  have hap := afterPoll_succeeded w r hsucc hwrite
  rw [hrun, htb, hap]
  refine ⟨rfl, by simp, ?_, rfl⟩
  rw [toJson_getField_jobStatus, hsucc]

/-- Claim C4 witness: the theorem applied to the concrete run
`happyWorld`, whose final poll response is `okResp`. -/
theorem C4_witness :
    (run happyWorld 5).resultFile = some ("async_output.json", okResp, 2) ∧
    Event.writeFile "async_output.json" okResp 2 ∈ (run happyWorld 5).events ∧
    Json.getField (PollResponse.toJson okResp) "JobStatus" =
      some (Json.str "SUCCEEDED") ∧
    (run happyWorld 5).outcome = Outcome.normal :=
  C4_succeeded_writes_result happyWorld 5 "job-1"
    [Event.textractGet "job-1" none,
     Event.print ("Current status: " ++ inProgressResp.jobStatus),
     Event.sleep 5,
     Event.textractGet "job-1" none,
     Event.print ("Current status: " ++ okResp.jobStatus)]
    okResp rfl rfl rfl (by decide) rfl rfl

/-- Claim C5: for every decodable source image the normalizer records a
save of a new file at the destination path `receipt-1.jpg` in format
JPEG at quality 95, with the pixel data coerced to mode RGB - a color
mode with no alpha channel. -/
theorem C5_normalizer_jpeg_rgb (w : World) (fuel : Nat)
    (hopen : w.openImage = Except.ok ()) :
    Event.convertSave original_file jpeg_file (convertRGB w.sourceMode)
        "JPEG" 95 ∈ (run w fuel).events ∧
    convertRGB w.sourceMode = "RGB" ∧
    modeHasAlpha (convertRGB w.sourceMode) = false := by
  refine ⟨?_, rfl, rfl⟩
  cases hup : w.upload with
  | error e =>
    rw [run_upload_error w fuel e hopen hup]
    simp [convertUploadEvents]
  | ok u =>
    cases u
    rw [run_ok_upload w fuel hopen hup]
    simp [convertUploadEvents]

/-- Claim C5 witness: the theorem applied to `happyWorld`, whose source
image decodes with mode RGBA. -/
theorem C5_witness :
    Event.convertSave original_file jpeg_file (convertRGB happyWorld.sourceMode)
        "JPEG" 95 ∈ (run happyWorld 5).events ∧
    convertRGB happyWorld.sourceMode = "RGB" ∧
    modeHasAlpha (convertRGB happyWorld.sourceMode) = false :=
  C5_normalizer_jpeg_rgb happyWorld 5 rfl

/-- Claim C6: an exception from the post-upload `head_object`
verification is caught and reported and the pipeline still reaches the
job-submission call; an exception from `upload_file` itself is not
caught: the run stops with it raised, before any verification or
submission event. -/
theorem C6_verification_nonfatal_upload_fatal (w : World) (fuel : Nat)
    (e : PyExn) (hopen : w.openImage = Except.ok ()) :
    (w.upload = Except.ok () → w.headObject = Except.error e →
      Event.print ("Error verifying file: " ++ e.msg) ∈ (run w fuel).events ∧
      Event.textractStart bucket_name s3_path ["FORMS", "TABLES"]
          "ReceiptAnalysis" ∈ (run w fuel).events) ∧
    (w.upload = Except.error e →
      run w fuel = ⟨convertUploadEvents w.sourceMode, none, Outcome.raised e⟩ ∧
      countP Event.isHead (run w fuel).events = 0 ∧
      countP Event.isStart (run w fuel).events = 0) := by
  constructor
  · intro hup hhead
    rw [run_ok_upload w fuel hopen hup]
    constructor
    · simp [verifyEvents, hhead]
    · have hmem := tryBlock_contains_start w fuel
      simp only [RunResult.mk.injEq]
      simp [hmem]
  · intro hup
    have hr := run_upload_error w fuel e hopen hup
    rw [hr]
    refine ⟨rfl, ?_, ?_⟩
    · exact countP_eq_zero (fun ev hev =>
        (convertUploadEvents_mem_shape w.sourceMode ev hev).2.1)
    · exact countP_eq_zero (fun ev hev =>
        (convertUploadEvents_mem_shape w.sourceMode ev hev).1)

/-- Claim C6 witness: the first part applied to `headFailWorld` (where
only `head_object` raises) and the second to `uploadFailWorld` (where
`upload_file` raises). -/
theorem C6_witness :
    (Event.print ("Error verifying file: " ++ "Not Found") ∈
        (run headFailWorld 5).events ∧
      Event.textractStart bucket_name s3_path ["FORMS", "TABLES"]
          "ReceiptAnalysis" ∈ (run headFailWorld 5).events) ∧
    (run uploadFailWorld 5 =
        ⟨convertUploadEvents uploadFailWorld.sourceMode, none,
         Outcome.raised ⟨"S3UploadFailedError", "Access Denied"⟩⟩ ∧
      countP Event.isHead (run uploadFailWorld 5).events = 0 ∧
      countP Event.isStart (run uploadFailWorld 5).events = 0) :=
  ⟨(C6_verification_nonfatal_upload_fatal headFailWorld 5
      ⟨"ClientError", "Not Found"⟩ rfl).1 rfl rfl,
   (C6_verification_nonfatal_upload_fatal uploadFailWorld 5
      ⟨"S3UploadFailedError", "Access Denied"⟩ rfl).2 rfl⟩

/-- Claim C7: if `Image.open` fails, the run halts at once with the
exception uncaught, before any network call: the trace holds no upload,
metadata read, submission or poll event, and no result file is
written. -/
theorem C7_decode_failure_halts_before_network (w : World) (fuel : Nat)
    (e : PyExn) (hopen : w.openImage = Except.error e) :
    run w fuel =
      ⟨[Event.print "Converting image to JPEG..."], none, Outcome.raised e⟩ ∧
    countP Event.isNet (run w fuel).events = 0 ∧
    (run w fuel).resultFile = none := by
  have hr := run_decode_error w fuel e hopen
  rw [hr]
  refine ⟨rfl, ?_, rfl⟩
  apply countP_eq_zero
  intro ev hev
  simp at hev
  subst hev
  rfl

/-- Claim C7 witness: the theorem applied to `decodeFailWorld`, whose
source file is missing. -/
theorem C7_witness :
    run decodeFailWorld 5 =
      ⟨[Event.print "Converting image to JPEG..."], none,
       Outcome.raised ⟨"FileNotFoundError", "No such file or directory"⟩⟩ ∧
    countP Event.isNet (run decodeFailWorld 5).events = 0 ∧
    (run decodeFailWorld 5).resultFile = none :=
  C7_decode_failure_halts_before_network decodeFailWorld 5
    ⟨"FileNotFoundError", "No such file or directory"⟩ rfl

/-- Claim C8: every exception raised inside the `try` block - during job
submission, during any status poll, or while writing the result file -
is caught once at the outer boundary, reported with its message and its
type name, and re-raised, so the run ends with the exception raised: the
trace ends with exactly the two handler prints and the outcome is
`raised`. -/
theorem C8_try_exceptions_caught_reported_reraised (w : World) (fuel : Nat)
    (e : PyExn) (jid : String)
    (hopen : w.openImage = Except.ok ()) (hup : w.upload = Except.ok ()) :
    (w.startAnalysis = Except.error e →
      run w fuel =
        ⟨convertUploadEvents w.sourceMode ++ verifyEvents w ++
           (submitEvents w.region ++ catchEvents e),
         none, Outcome.raised e⟩ ∧
      Event.print ("Error processing document: " ++ e.msg) ∈ (run w fuel).events ∧
      Event.print ("Error type: " ++ e.typeName) ∈ (run w fuel).events) ∧
    (∀ evs, w.startAnalysis = Except.ok jid →
      pollLoop w.getAnalysis jid fuel 0 = (evs, some (Except.error e)) →
      run w fuel =
        ⟨convertUploadEvents w.sourceMode ++ verifyEvents w ++
           (submitEvents w.region ++ postStartEvents jid ++ evs ++ catchEvents e),
         none, Outcome.raised e⟩) ∧
    (∀ evs r, w.startAnalysis = Except.ok jid →
      pollLoop w.getAnalysis jid fuel 0 = (evs, some (Except.ok r)) →
      r.jobStatus = "SUCCEEDED" → w.writeResult = Except.error e →
      run w fuel =
        ⟨convertUploadEvents w.sourceMode ++ verifyEvents w ++
           (submitEvents w.region ++ postStartEvents jid ++ evs ++ catchEvents e),
         none, Outcome.raised e⟩) := by
  refine ⟨?_, ?_, ?_⟩
  · intro hstart
    have hr := run_ok_upload w fuel hopen hup
    rw [hr, tryBlock_start_error w fuel e hstart]
    refine ⟨rfl, ?_, ?_⟩ <;> simp [catchEvents]
  · intro evs hstart hpoll
    have hr := run_ok_upload w fuel hopen hup
    rw [hr, tryBlock_poll_error w fuel jid evs e hstart hpoll]
  · intro evs r hstart hpoll hsucc hwrite
    have hr := run_ok_upload w fuel hopen hup
    rw [hr, tryBlock_poll_ok w fuel jid evs r hstart hpoll,
        afterPoll_succeeded_write_error w r e hsucc hwrite]

/-- Claim C8 witness: the three parts applied to `startFailWorld` (the
submission raises), `pollFailWorld` (the second poll raises) and
`writeFailWorld` (writing the result file raises). -/
theorem C8_witness :
    (run startFailWorld 5 =
      ⟨convertUploadEvents startFailWorld.sourceMode ++
         verifyEvents startFailWorld ++
         (submitEvents startFailWorld.region ++
            catchEvents ⟨"InvalidS3ObjectException", "Unable to get object"⟩),
       none, Outcome.raised ⟨"InvalidS3ObjectException", "Unable to get object"⟩⟩) ∧
    (run pollFailWorld 5 =
      ⟨convertUploadEvents pollFailWorld.sourceMode ++
         verifyEvents pollFailWorld ++
         (submitEvents pollFailWorld.region ++ postStartEvents "job-1" ++
            [Event.textractGet "job-1" none,
             Event.print ("Current status: " ++ inProgressResp.jobStatus),
             Event.sleep 5,
             Event.textractGet "job-1" none] ++
            catchEvents ⟨"ThrottlingException", "Rate exceeded"⟩),
       none, Outcome.raised ⟨"ThrottlingException", "Rate exceeded"⟩⟩) ∧
    (run writeFailWorld 5 =
      ⟨convertUploadEvents writeFailWorld.sourceMode ++
         verifyEvents writeFailWorld ++
         (submitEvents writeFailWorld.region ++ postStartEvents "job-1" ++
            [Event.textractGet "job-1" none,
             Event.print ("Current status: " ++ inProgressResp.jobStatus),
             Event.sleep 5,
             Event.textractGet "job-1" none,
             Event.print ("Current status: " ++ okResp.jobStatus)] ++
            catchEvents ⟨"OSError", "No space left on device"⟩),
       none, Outcome.raised ⟨"OSError", "No space left on device"⟩⟩) :=
  ⟨((C8_try_exceptions_caught_reported_reraised startFailWorld 5
       ⟨"InvalidS3ObjectException", "Unable to get object"⟩ "job-1"
       rfl rfl).1 rfl).1,
   (C8_try_exceptions_caught_reported_reraised pollFailWorld 5
       ⟨"ThrottlingException", "Rate exceeded"⟩ "job-1" rfl rfl).2.1
     [Event.textractGet "job-1" none,
      Event.print ("Current status: " ++ inProgressResp.jobStatus),
      Event.sleep 5,
      Event.textractGet "job-1" none] rfl (by decide),
   (C8_try_exceptions_caught_reported_reraised writeFailWorld 5
       ⟨"OSError", "No space left on device"⟩ "job-1" rfl rfl).2.2
     [Event.textractGet "job-1" none,
      Event.print ("Current status: " ++ inProgressResp.jobStatus),
      Event.sleep 5,
      Event.textractGet "job-1" none,
      Event.print ("Current status: " ++ okResp.jobStatus)]
     okResp rfl (by decide) rfl rfl⟩

/-- Claim C9, counterexample.  The claim says the upload is invoked
EXACTLY once in every run, but in a run whose image decode fails the
pipeline halts before the upload: the trace of `decodeFailWorld` holds
zero upload invocations. -/
theorem C9_counterexample :
    countP Event.isUpload (run decodeFailWorld 1).events = 0 ∧
    ¬ countP Event.isUpload (run decodeFailWorld 1).events = 1 := by
  refine ⟨by decide, by decide⟩

/-- Claim C9 (amended): in every run the upload operation is invoked at
most once - exactly once whenever the image decode succeeds - and the
job-submission operation is invoked at most once, so at most one
analysis job exists per run and neither operation is retried. -/
theorem C9_at_most_one_upload_and_submission (w : World) (fuel : Nat) :
    countP Event.isUpload (run w fuel).events ≤ 1 ∧
    (w.openImage = Except.ok () → countP Event.isUpload (run w fuel).events = 1) ∧
    countP Event.isStart (run w fuel).events ≤ 1 := by
  cases hopen : w.openImage with
  | error e =>
    rw [run_decode_error w fuel e hopen]
    dsimp only
    refine ⟨?_, ?_, ?_⟩
    · have h0 : countP Event.isUpload [Event.print "Converting image to JPEG..."] = 0 := by
        decide
      omega
    · intro h
      simp at h
    · have h0 : countP Event.isStart [Event.print "Converting image to JPEG..."] = 0 := by
        decide
      omega
  | ok u =>
    cases u
    have hcu := (countP_single_calls w.sourceMode w.region).1
    have hcs : countP Event.isStart (convertUploadEvents w.sourceMode) = 0 :=
      countP_eq_zero (fun ev hev =>
        (convertUploadEvents_mem_shape w.sourceMode ev hev).1)
    cases hup : w.upload with
    | error e =>
      rw [run_upload_error w fuel e hopen hup]
      dsimp only
      exact ⟨le_of_eq hcu, fun _ => hcu, by omega⟩
    | ok u2 =>
      cases u2
      rw [run_ok_upload w fuel hopen hup]
      dsimp only
      have hvu : countP Event.isUpload (verifyEvents w) = 0 :=
        countP_eq_zero (fun ev hev => (verifyEvents_mem_shape w ev hev).1)
      have hvs : countP Event.isStart (verifyEvents w) = 0 :=
        countP_eq_zero (fun ev hev => (verifyEvents_mem_shape w ev hev).2.1)
      have htb := tryBlock_counts w fuel
      refine ⟨?_, fun _ => ?_, ?_⟩ <;>
        simp only [countP_append, hcu, hcs, hvu, hvs, htb.1, htb.2] <;> omega

/-- Claim C9 witness: the amended theorem applied to `happyWorld`. -/
theorem C9_witness :
    countP Event.isUpload (run happyWorld 5).events = 1 ∧
    countP Event.isStart (run happyWorld 5).events ≤ 1 :=
  ⟨(C9_at_most_one_upload_and_submission happyWorld 5).2.1 rfl,
   (C9_at_most_one_upload_and_submission happyWorld 5).2.2⟩

/-- Claim C10: the content written to `async_output.json` is exactly the
single final status-poll response, and the program never issues a
follow-up request with a pagination token: in a run whose final response
carries a `NextToken`, every poll event in the whole trace still carries
no token, so pages beyond the first are never fetched or persisted. -/
theorem C10_single_final_response_no_pagination (w : World) (fuel : Nat)
    (jid tok : String) (evs : List Event) (r : PollResponse)
    (hopen : w.openImage = Except.ok ()) (hup : w.upload = Except.ok ())
    (hstart : w.startAnalysis = Except.ok jid)
    (hpoll : pollLoop w.getAnalysis jid fuel 0 = (evs, some (Except.ok r)))
    (hsucc : r.jobStatus = "SUCCEEDED") (hwrite : w.writeResult = Except.ok ())
    (_htok : r.nextToken = some tok) :
    (run w fuel).resultFile = some ("async_output.json", r, 2) ∧
    (∀ ev ∈ (run w fuel).events, Event.firstPageOnly ev = true) := by
  have hrun := run_ok_upload w fuel hopen hup
  have htb := tryBlock_poll_ok w fuel jid evs r hstart hpoll
  have hap := afterPoll_succeeded w r hsucc hwrite
  rw [hrun, htb, hap]
  dsimp only
  refine ⟨rfl, ?_⟩
  refine List.forall_mem_append.mpr
    ⟨List.forall_mem_append.mpr ⟨?_, ?_⟩,
     List.forall_mem_append.mpr
       ⟨List.forall_mem_append.mpr ⟨List.forall_mem_append.mpr ⟨?_, ?_⟩, ?_⟩, ?_⟩⟩
  · exact fun ev hev => (convertUploadEvents_mem_shape w.sourceMode ev hev).2.2.2.2
  · exact fun ev hev => (verifyEvents_mem_shape w ev hev).2.2.2.2
  · exact fun ev hev => (submitEvents_mem_shape w.region ev hev).2.2.2.2
  · exact fun ev hev => (postStartEvents_mem_shape jid ev hev).2.2.2.2.2
  · exact fun ev hev =>
      (pollLoop_mem_shape w.getAnalysis jid fuel 0 ev (by rw [hpoll]; exact hev)).1
  · simp [Event.firstPageOnly]

/-- Claim C10 witness: the theorem applied to `happyWorld`, whose final
response `okResp` carries the pagination token "token-1"; the whole
trace is checked to hold no tokenized poll. -/
theorem C10_witness :
    (run happyWorld 5).resultFile = some ("async_output.json", okResp, 2) ∧
    (run happyWorld 5).events.all Event.firstPageOnly = true := by
  obtain ⟨h1, h2⟩ := C10_single_final_response_no_pagination happyWorld 5
      "job-1" "token-1"
      [Event.textractGet "job-1" none,
       Event.print ("Current status: " ++ inProgressResp.jobStatus),
       Event.sleep 5,
       Event.textractGet "job-1" none,
       Event.print ("Current status: " ++ okResp.jobStatus)]
      okResp rfl rfl rfl (by decide) rfl rfl rfl
  exact ⟨h1, List.all_eq_true.mpr h2⟩

end ReceiptApp
